import Mathlib

/-!
Verification of the real-time pattern-synthesis core of the
subtle-frequencies repository: the Chladni renderer's frequency-to-mode
mapping and damping, the Chladni field equation (TS and GLSL paths), the
software 2D fallback, the wave-interference renderer's wavelength
derivation, the particle retargeting sampler, and the sacred-geometry
chakra-state interpolation.  Every definition is a shallow embedding of
the corresponding source function, with JavaScript numbers modelled as
real numbers.
-/

/-! ### ChladniRenderer.updateFrequency (frequency → target mode numbers) -/

/-- `Math.max(20, Math.min(frequency, 20000))`. -/
noncomputable def normalizedFreq (frequency : ℝ) : ℝ :=
  max 20 (min frequency 20000)

/-- `Math.log2(normalizedFreq / 200)`. -/
noncomputable def octavesFrom200Hz (frequency : ℝ) : ℝ :=
  Real.logb 2 (normalizedFreq frequency / 200)

/-- `baseN + octavesFrom200Hz` with `baseN = 3`. -/
noncomputable def modeN (frequency : ℝ) : ℝ :=
  3 + octavesFrom200Hz frequency

/-- `baseM + octavesFrom200Hz * 0.8` with `baseM = 3`. -/
noncomputable def modeM (frequency : ℝ) : ℝ :=
  3 + octavesFrom200Hz frequency * 0.8

/-- `Math.max(2, Math.min(8, Math.round(x)))`. -/
noncomputable def clampMode (x : ℝ) : ℝ :=
  max 2 (min 8 ((round x : ℤ) : ℝ))

/-- `octavesFrom200Hz - Math.floor(octavesFrom200Hz)`. -/
noncomputable def fractionalOctave (frequency : ℝ) : ℝ :=
  octavesFrom200Hz frequency - ⌊octavesFrom200Hz frequency⌋

/-- The `+= 0.3` applied to both targets when `fractionalOctave > 0.7`. -/
noncomputable def octaveNudge (frequency : ℝ) : ℝ :=
  if 0.7 < fractionalOctave frequency then 0.3 else 0

/-- Net value stored in `this.targetModeN` by `updateFrequency`. -/
noncomputable def targetModeN (frequency : ℝ) : ℝ :=
  clampMode (modeN frequency) + octaveNudge frequency

/-- Net value stored in `this.targetModeM` by `updateFrequency`. -/
noncomputable def targetModeM (frequency : ℝ) : ℝ :=
  clampMode (modeM frequency) + octaveNudge frequency

/-! ### ChladniRenderer mode state machine (updateFrequency / render) -/

/-- The four mutable mode fields of `ChladniRenderer`. -/
structure ModeState where
  currentModeN : ℝ
  currentModeM : ℝ
  targetModeN : ℝ
  targetModeM : ℝ

/-- Field initialisers: `currentModeN = 3, currentModeM = 2, targetModeN = 3,
targetModeM = 2`. -/
noncomputable def initModeState : ModeState := ⟨3, 2, 3, 2⟩

/-- Effect of `updateFrequency(f)` on the mode fields. -/
noncomputable def applyUpdateFrequency (s : ModeState) (frequency : ℝ) : ModeState :=
  { s with targetModeN := targetModeN frequency, targetModeM := targetModeM frequency }

/-- Effect of one `render` call on the current mode fields:
`lerpSpeed = deltaTime * 2; current += (target - current) * lerpSpeed`.
`deltaTime` is the measured elapsed time in seconds (uncapped in the code). -/
noncomputable def applyRender (s : ModeState) (deltaTime : ℝ) : ModeState :=
  { s with
    currentModeN := s.currentModeN + (s.targetModeN - s.currentModeN) * (deltaTime * 2),
    currentModeM := s.currentModeM + (s.targetModeM - s.currentModeM) * (deltaTime * 2) }

/-- Host-driven calls that touch the mode fields. -/
inductive ModeEvent where
  | updFreq (frequency : ℝ)
  | render (deltaTime : ℝ)

noncomputable def stepMode (s : ModeState) : ModeEvent → ModeState
  | ModeEvent.updFreq f => applyUpdateFrequency s f
  | ModeEvent.render dt => applyRender s dt

/-- The mode state after a sequence of calls, starting from construction. -/
noncomputable def runMode (events : List ModeEvent) : ModeState :=
  events.foldl stepMode initModeState

/-! ### FieldEquation (ParticleSystem.calculateChladni and ChladniRenderer.render2D) -/

/-- `cos(n·π·x)·cos(m·π·y) − cos(m·π·x)·cos(n·π·y)` (argument order as in
`ParticleSystem.calculateChladni(x, y, n, m)`). -/
noncomputable def calculateChladni (x y n m : ℝ) : ℝ :=
  Real.cos (n * Real.pi * x) * Real.cos (m * Real.pi * y) -
    Real.cos (m * Real.pi * x) * Real.cos (n * Real.pi * y)

/-- Per-pixel intensity of the software fallback `ChladniRenderer.render2D`
at normalized coordinates: `Math.abs(chladni) < 0.1 ? 255 : 0`. -/
noncomputable def render2DIntensity (n m x y : ℝ) : ℝ :=
  if |calculateChladni x y n m| < 0.1 then 255 else 0

/-- Alpha channel written by `render2D`: `intensity * this.amplitude`. -/
noncomputable def render2DAlpha (n m amplitude x y : ℝ) : ℝ :=
  render2DIntensity n m x y * amplitude

/-! ### GPU fragment shader (src/visualizer/shaders/chladni.frag.glsl) -/

/-- GLSL `smoothstep(edge0, edge1, x)`:
`t = clamp((x-edge0)/(edge1-edge0), 0, 1); t*t*(3-2*t)`. -/
noncomputable def glslSmoothstep (edge0 edge1 x : ℝ) : ℝ :=
  let t := max 0 (min 1 ((x - edge0) / (edge1 - edge0)))
  t * t * (3 - 2 * t)

/-- The shader's `const float PI = 3.14159265359`. -/
noncomputable def shaderPI : ℝ := 3.14159265359

/-- Scalar `intensity` computed by the fragment shader `main` for
centred coordinates `x, y ∈ [-1, 1]` (so `r = length(uv)*2 = √(x²+y²)`). -/
noncomputable def shaderIntensity (n m time amplitude x y : ℝ) : ℝ :=
  let r := Real.sqrt (x * x + y * y)
  let pattern0 := Real.cos (n * shaderPI * x) * Real.cos (m * shaderPI * y) -
    Real.cos (m * shaderPI * x) * Real.cos (n * shaderPI * y)
  let pattern := (pattern0 + Real.sin (time * 0.5) * 0.05) * (0.7 + amplitude * 0.3)
  let modeComplexity := (n + m) / 2
  let adaptiveThickness := 0.25 / max 1 (modeComplexity * 0.15)
  let lineThickness := adaptiveThickness * (1 + amplitude * 0.5)
  let nodal := 1 - glslSmoothstep 0 lineThickness |pattern|
  let glowStrength := 0.5 * (1 + amplitude)
  let glow := Real.exp (-|pattern| * 6) * glowStrength
  let mask := glslSmoothstep 1 0.7 r
  (nodal * 1.0 + glow * 0.6) * mask

/-! ### WaveRenderer -/

/-- `WaveRenderer.updateFrequency` stores the frequency with no clamping. -/
noncomputable def waveUpdateFrequency (frequency : ℝ) : ℝ := frequency

/-- `const wavelength = 50 + (1000 - this.frequency) * 0.05` in
`calculateInterference`. -/
noncomputable def waveWavelength (frequency : ℝ) : ℝ :=
  50 + (1000 - frequency) * 0.05

/-- One wave source `{x, y, phase, speed}`. -/
structure WaveSource where
  x : ℝ
  y : ℝ
  phase : ℝ
  speed : ℝ

/-- `WaveRenderer.calculateInterference(x, y, time)`: the per-source sine sum
normalised by source count; the denominator is `waveWavelength`. -/
noncomputable def calculateInterference (frequency : ℝ) (sources : List WaveSource)
    (px py time : ℝ) : ℝ :=
  (sources.foldl (fun sum s =>
    let dx := px - s.x
    let dy := py - s.y
    let distance := Real.sqrt (dx * dx + dy * dy)
    sum + Real.sin ((distance / waveWavelength frequency - time * s.speed) *
      Real.pi * 2 + s.phase)) 0) / sources.length

/-! ### ParticleSystem.updateTargets (per-particle sampling loop) -/

/-- `Math.abs` of the Chladni field at a candidate canvas point `p`, after the
normalisation `normX = (testX - centerX) / (width/2)` (and same for `y`). -/
noncomputable def chladniAbsAt (width height n m : ℝ) (p : ℝ × ℝ) : ℝ :=
  |calculateChladni ((p.1 - width / 2) / (width / 2)) ((p.2 - height / 2) / (height / 2)) n m|

/-- One iteration of the sampling loop: keep the candidate with the strictly
smallest `|chladni|` seen so far (`none` plays the role of the initial
`minDistance = Infinity`). -/
noncomputable def sampleStep (width height n m : ℝ) (acc : Option ((ℝ × ℝ) × ℝ))
    (p : ℝ × ℝ) : Option ((ℝ × ℝ) × ℝ) :=
  let d := chladniAbsAt width height n m p
  match acc with
  | none => some (p, d)
  | some qd => if d < qd.2 then some (p, d) else some qd

/-- The best sample (point and its field magnitude) over the attempts list. -/
noncomputable def bestSample (width height n m : ℝ) (samples : List (ℝ × ℝ)) :
    Option ((ℝ × ℝ) × ℝ) :=
  samples.foldl (sampleStep width height n m) none

/-- Net effect of `updateTargets` on one particle's target: assign the best
sample only if its field magnitude is below the tolerance `0.2`, otherwise
keep the previous target. -/
noncomputable def updateTarget (width height n m : ℝ) (prev : ℝ × ℝ)
    (samples : List (ℝ × ℝ)) : ℝ × ℝ :=
  match bestSample width height n m samples with
  | none => prev
  | some qd => if qd.2 < 0.2 then qd.1 else prev

/-! ### Construction and render dispatch (ChladniRenderer / GeometryRenderer) -/

/-- Which drawing contexts a constructed `ChladniRenderer` ended up holding. -/
structure ChladniContexts where
  gl : Bool
  ctx2d : Bool
deriving DecidableEq

/-- `ChladniRenderer` constructor: tries WebGL (unless `useWebGL === false`),
falls back to a 2D context, then builds the `ParticleSystem` (whose own
constructor throws when the particle canvas yields no 2D context).  It never
throws on account of the main canvas. -/
def chladniConstruct (useWebGL webglAvailable ctx2dAvailable particle2dAvailable : Bool) :
    Except String ChladniContexts :=
  let gl := useWebGL && webglAvailable
  let ctx2d := if gl then false else ctx2dAvailable
  if particle2dAvailable then Except.ok ⟨gl, ctx2d⟩
  else Except.error "Could not get 2D context"

/-- Which branch `ChladniRenderer.render` takes for the field layer. -/
inductive RenderPath where
  | webgl
  | canvas2d
deriving DecidableEq

/-- The field-layer dispatch in `render`: WebGL if a GL context (and program)
exists, else the 2D context if present, else nothing is drawn. -/
def renderDispatch (c : ChladniContexts) : Option RenderPath :=
  if c.gl then some RenderPath.webgl
  else if c.ctx2d then some RenderPath.canvas2d
  else none

/-- `GeometryRenderer` constructor: `if (!ctx) throw new Error(...)`. -/
def geometryConstruct (ctx2dAvailable : Bool) : Except String Unit :=
  if ctx2dAvailable then Except.ok () else Except.error "Failed to get 2D context"

/-! ### GeometryRenderer chakra states -/

/-- An RGB colour triplet. -/
structure RGB where
  r : ℝ
  g : ℝ
  b : ℝ

/-- The interpolated parameter vector of the sacred-geometry renderer. -/
structure ChakraState where
  petals : ℝ
  centralVertices : ℝ
  rings : ℝ
  gateStyle : ℝ
  color : RGB
  innerColor : RGB
  rotSpeed : ℝ
  complexity : ℝ
  sacredForm : ℝ

/-- One entry of the `CHAKRAS` anchor table. -/
structure ChakraAnchor where
  freq : ℝ
  state : ChakraState

def chakraRoot : ChakraAnchor :=
  ⟨120, ⟨4, 4, 2, 1, ⟨220, 50, 30⟩, ⟨240, 180, 50⟩, 0.02, 0.2, 0⟩⟩

def chakraSacral : ChakraAnchor :=
  ⟨300, ⟨6, 0, 3, 0.7, ⟨240, 140, 30⟩, ⟨255, 200, 60⟩, 0.03, 0.35, 0.8⟩⟩

def chakraSolarPlexus : ChakraAnchor :=
  ⟨450, ⟨10, 3, 3, 0.4, ⟨250, 210, 30⟩, ⟨255, 240, 100⟩, 0.04, 0.5, 1.5⟩⟩

def chakraHeart : ChakraAnchor :=
  ⟨580, ⟨12, 6, 4, 0.2, ⟨50, 220, 100⟩, ⟨140, 255, 160⟩, 0.035, 0.65, 2.5⟩⟩

def chakraThroat : ChakraAnchor :=
  ⟨720, ⟨16, 0, 5, 0.1, ⟨40, 150, 255⟩, ⟨120, 200, 255⟩, 0.03, 0.8, 3.5⟩⟩

def chakraThirdEye : ChakraAnchor :=
  ⟨870, ⟨2, 3, 3, 0, ⟨140, 60, 255⟩, ⟨200, 150, 255⟩, 0.025, 0.7, 4.5⟩⟩

def chakraCrown : ChakraAnchor :=
  ⟨1000, ⟨24, 1, 6, 0, ⟨200, 160, 255⟩, ⟨255, 245, 255⟩, 0.015, 1.0, 5⟩⟩

/-- The ordered anchor table `CHAKRAS`. -/
def CHAKRAS : List ChakraAnchor :=
  [chakraRoot, chakraSacral, chakraSolarPlexus, chakraHeart, chakraThroat,
    chakraThirdEye, chakraCrown]

/-- `GeometryRenderer.lerp`. -/
noncomputable def lerp (a b t : ℝ) : ℝ := a + (b - a) * t

/-- `GeometryRenderer.lerpColor` (componentwise). -/
noncomputable def lerpColor (a b : RGB) (t : ℝ) : RGB :=
  ⟨a.r + (b.r - a.r) * t, a.g + (b.g - a.g) * t, a.b + (b.b - a.b) * t⟩

/-- The smoothstep weight `st = t * t * (3 - 2 * t)` of `getChakraState`. -/
noncomputable def smoothT (t : ℝ) : ℝ := t * t * (3 - 2 * t)

/-- The record built at the end of `getChakraState`, as a function of the
already-smoothed weight `st`: every field is interpolated with the same
weight, colours componentwise. -/
noncomputable def interpolateChakra (lower upper : ChakraState) (st : ℝ) : ChakraState :=
  { petals := lower.petals + (upper.petals - lower.petals) * st
    centralVertices := lower.centralVertices + (upper.centralVertices - lower.centralVertices) * st
    rings := lower.rings + (upper.rings - lower.rings) * st
    gateStyle := lerp lower.gateStyle upper.gateStyle st
    color := lerpColor lower.color upper.color st
    innerColor := lerpColor lower.innerColor upper.innerColor st
    rotSpeed := lerp lower.rotSpeed upper.rotSpeed st
    complexity := lerp lower.complexity upper.complexity st
    sacredForm := lerp lower.sacredForm upper.sacredForm st }

/-- The bracket-search loop of `getChakraState`: the first adjacent pair
`(CHAKRAS[i], CHAKRAS[i+1])` whose frequencies enclose `f`, with the default
`(CHAKRAS[0], CHAKRAS[last])` when no pair matches. -/
noncomputable def bracketLoop (f : ℝ) :
    List ChakraAnchor → ChakraAnchor × ChakraAnchor → ChakraAnchor × ChakraAnchor
  | a :: b :: rest, d =>
    if a.freq ≤ f ∧ f ≤ b.freq then (a, b) else bracketLoop f (b :: rest) d
  | _, d => d

/-- Body of `getChakraState` after the initial clamp. -/
noncomputable def chakraBody (clampedFreq : ℝ) : ChakraState :=
  let lu := bracketLoop clampedFreq CHAKRAS (chakraRoot, chakraCrown)
  if clampedFreq ≤ chakraRoot.freq then chakraRoot.state
  else if chakraCrown.freq ≤ clampedFreq then chakraCrown.state
  else
    let t := (clampedFreq - lu.1.freq) / (lu.2.freq - lu.1.freq)
    interpolateChakra lu.1.state lu.2.state (smoothT t)

/-- `GeometryRenderer.getChakraState(freq)`: clamp to `[20, 2000]`, then
bracket and interpolate. -/
noncomputable def getChakraState (freq : ℝ) : ChakraState :=
  chakraBody (max 20 (min freq 2000))

/-- `const speed = Math.min(dt * 4.0, 0.3)` in `GeometryRenderer.updateState`. -/
noncomputable def geomSpeed (dt : ℝ) : ℝ := min (dt * 4.0) 0.3

/-- `GeometryRenderer.updateState(dt)`: every field of `current` moves toward
`target` by the factor `speed`. -/
noncomputable def geomUpdateState (current target : ChakraState) (dt : ℝ) : ChakraState :=
  { petals := current.petals + (target.petals - current.petals) * geomSpeed dt
    centralVertices :=
      current.centralVertices + (target.centralVertices - current.centralVertices) * geomSpeed dt
    rings := current.rings + (target.rings - current.rings) * geomSpeed dt
    gateStyle := current.gateStyle + (target.gateStyle - current.gateStyle) * geomSpeed dt
    color := ⟨current.color.r + (target.color.r - current.color.r) * geomSpeed dt,
      current.color.g + (target.color.g - current.color.g) * geomSpeed dt,
      current.color.b + (target.color.b - current.color.b) * geomSpeed dt⟩
    innerColor := ⟨current.innerColor.r + (target.innerColor.r - current.innerColor.r) * geomSpeed dt,
      current.innerColor.g + (target.innerColor.g - current.innerColor.g) * geomSpeed dt,
      current.innerColor.b + (target.innerColor.b - current.innerColor.b) * geomSpeed dt⟩
    rotSpeed := current.rotSpeed + (target.rotSpeed - current.rotSpeed) * geomSpeed dt
    complexity := current.complexity + (target.complexity - current.complexity) * geomSpeed dt
    sacredForm := current.sacredForm + (target.sacredForm - current.sacredForm) * geomSpeed dt }

/-! ### Predicates used by the invariant and no-overshoot claims -/

/-- `x` lies (inclusively) between `a` and `b`. -/
def between (a b x : ℝ) : Prop := min a b ≤ x ∧ x ≤ max a b

/-- All four mode fields lie in `[2, 8.3]`. -/
def modeInv (s : ModeState) : Prop :=
  (2 ≤ s.currentModeN ∧ s.currentModeN ≤ 8.3) ∧
    (2 ≤ s.currentModeM ∧ s.currentModeM ≤ 8.3) ∧
    (2 ≤ s.targetModeN ∧ s.targetModeN ≤ 8.3) ∧
    (2 ≤ s.targetModeM ∧ s.targetModeM ≤ 8.3)

/-- Side condition on an event: render steps use an elapsed time in
`[0, 0.5]` seconds (so that the lerp factor `dt * 2` stays in `[0, 1]`). -/
def eventOK : ModeEvent → Prop
  | ModeEvent.updFreq _ => True
  | ModeEvent.render dt => 0 ≤ dt ∧ dt ≤ 1/2

/-! ### Helper lemmas: evaluating the octave map -/

theorem normalizedFreq_eq_self {f : ℝ} (h1 : 20 ≤ f) (h2 : f ≤ 20000) :
    normalizedFreq f = f := by
  unfold normalizedFreq
  rw [min_eq_left h2, max_eq_right h1]

theorem oct_eval (y : ℝ) (h1 : (20:ℝ) ≤ 200 * (2:ℝ) ^ y)
    (h2 : (200:ℝ) * (2:ℝ) ^ y ≤ 20000) :
    octavesFrom200Hz (200 * (2:ℝ) ^ y) = y := by
  unfold octavesFrom200Hz
  rw [normalizedFreq_eq_self h1 h2]
  rw [show (200:ℝ) * (2:ℝ) ^ y / 200 = (2:ℝ) ^ y by ring]
  exact Real.logb_rpow (by norm_num) (by norm_num)

theorem rpow_neg_two : (2:ℝ) ^ ((-2 : ℝ)) = 1/4 := by
  rw [show ((-2:ℝ)) = ((-2 : ℤ) : ℝ) by norm_num, Real.rpow_intCast]
  norm_num

theorem rpow_neg_one : (2:ℝ) ^ ((-1 : ℝ)) = 1/2 := by
  rw [show ((-1:ℝ)) = ((-1 : ℤ) : ℝ) by norm_num, Real.rpow_intCast]
  norm_num

theorem rpow_two_eval : (2:ℝ) ^ ((2 : ℝ)) = 4 := by
  rw [show ((2:ℝ)) = ((2 : ℕ) : ℝ) by norm_num, Real.rpow_natCast]
  norm_num

theorem oct_50 : octavesFrom200Hz 50 = -2 := by
  have h : (50:ℝ) = 200 * (2:ℝ) ^ ((-2 : ℝ)) := by rw [rpow_neg_two]; norm_num
  rw [h]
  exact oct_eval _ (by rw [rpow_neg_two]; norm_num) (by rw [rpow_neg_two]; norm_num)

theorem oct_100 : octavesFrom200Hz 100 = -1 := by
  have h : (100:ℝ) = 200 * (2:ℝ) ^ ((-1 : ℝ)) := by rw [rpow_neg_one]; norm_num
  rw [h]
  exact oct_eval _ (by rw [rpow_neg_one]; norm_num) (by rw [rpow_neg_one]; norm_num)

theorem oct_200 : octavesFrom200Hz 200 = 0 := by
  have h : (200:ℝ) = 200 * (2:ℝ) ^ ((0 : ℝ)) := by rw [Real.rpow_zero]; norm_num
  rw [h]
  exact oct_eval _ (by rw [Real.rpow_zero]; norm_num) (by rw [Real.rpow_zero]; norm_num)

theorem oct_800 : octavesFrom200Hz 800 = 2 := by
  have h : (800:ℝ) = 200 * (2:ℝ) ^ ((2 : ℝ)) := by rw [rpow_two_eval]; norm_num
  rw [h]
  exact oct_eval _ (by rw [rpow_two_eval]; norm_num) (by rw [rpow_two_eval]; norm_num)

theorem round_eval {q : ℝ} {z : ℤ} (h1 : (z:ℝ) ≤ q + 1/2) (h2 : q + 1/2 < z + 1) :
    round q = z := by
  rw [round_eq]
  exact Int.floor_eq_iff.mpr ⟨h1, h2⟩

theorem floor_eval {q : ℝ} {z : ℤ} (h1 : (z:ℝ) ≤ q) (h2 : q < z + 1) :
    ⌊q⌋ = z :=
  Int.floor_eq_iff.mpr ⟨h1, h2⟩

theorem targetModeN_50 : targetModeN 50 = 2 := by
  unfold targetModeN clampMode octaveNudge fractionalOctave modeN
  rw [oct_50]
  rw [show (3:ℝ) + -2 = 1 by norm_num]
  rw [round_eval (z := 1) (by norm_num) (by norm_num)]
  rw [floor_eval (z := -2) (by norm_num) (by norm_num)]
  norm_num

theorem targetModeN_100 : targetModeN 100 = 2 := by
  unfold targetModeN clampMode octaveNudge fractionalOctave modeN
  rw [oct_100]
  rw [show (3:ℝ) + -1 = 2 by norm_num]
  rw [round_eval (z := 2) (by norm_num) (by norm_num)]
  rw [floor_eval (z := -1) (by norm_num) (by norm_num)]
  norm_num

/-! ### C1 supporting lemmas: behaviour one octave up -/

theorem oct_double {f : ℝ} (h1 : 20 ≤ f) (h2 : 2 * f ≤ 20000) :
    octavesFrom200Hz (2 * f) = 1 + octavesFrom200Hz f := by
  have hf200 : f ≤ 20000 := by linarith
  have hf2lo : (20:ℝ) ≤ 2 * f := by linarith
  have hfne : f / 200 ≠ 0 := by positivity
  unfold octavesFrom200Hz
  rw [normalizedFreq_eq_self h1 hf200, normalizedFreq_eq_self hf2lo h2]
  rw [show (2 * f) / 200 = 2 * (f / 200) by ring]
  rw [Real.logb_mul (by norm_num) hfne]
  rw [Real.logb_self_eq_one (by norm_num)]

theorem modeN_double {f : ℝ} (h1 : 20 ≤ f) (h2 : 2 * f ≤ 20000) :
    modeN (2 * f) = modeN f + 1 := by
  unfold modeN
  rw [oct_double h1 h2]
  ring

theorem fractionalOctave_double {f : ℝ} (h1 : 20 ≤ f) (h2 : 2 * f ≤ 20000) :
    fractionalOctave (2 * f) = fractionalOctave f := by
  unfold fractionalOctave
  rw [oct_double h1 h2, show 1 + octavesFrom200Hz f = octavesFrom200Hz f + 1 by ring,
    Int.floor_add_one]
  push_cast
  ring

theorem clampMode_of_between {x : ℝ} (h1 : (2:ℤ) ≤ round x) (h2 : round x ≤ 8) :
    clampMode x = ((round x : ℤ) : ℝ) := by
  unfold clampMode
  rw [min_eq_right (by exact_mod_cast h2), max_eq_right (by exact_mod_cast h1)]

theorem modeN_100 : modeN 100 = 2 := by
  unfold modeN
  rw [oct_100]
  norm_num

theorem round_modeN_100 : round (modeN 100) = 2 := by
  rw [modeN_100]
  exact round_eval (by norm_num) (by norm_num)

/-- Claim C1 (corrected): for frequencies one octave apart inside the
supported span, the difference of the target mode numbers `n` is exactly 1
provided the rounded raw mode values of both endpoints stay inside the
clamp range `[2, 8]`; the fractional-octave nudge is identical at both
endpoints and cancels. -/
theorem octave_pairs_modeN_diff_one (f : ℝ) (h1 : 20 ≤ f) (h2 : 2 * f ≤ 20000)
    (h3 : (2:ℤ) ≤ round (modeN f)) (h4 : round (modeN f) ≤ 7) :
    targetModeN (2 * f) - targetModeN f = 1 := by
  have hr2 : round (modeN (2 * f)) = round (modeN f) + 1 := by
    rw [modeN_double h1 h2, round_add_one]
  unfold targetModeN
  rw [clampMode_of_between h3 (by omega)]
  rw [clampMode_of_between (x := modeN (2 * f)) (by omega) (by omega)]
  unfold octaveNudge
  rw [fractionalOctave_double h1 h2, hr2]
  push_cast
  ring

/-- Witness for C1: at `f = 100` (so `f2 = 200`), the hypotheses hold and the
target mode `n` difference is exactly 1. -/
theorem octave_pairs_modeN_diff_one_witness :
    (20:ℝ) ≤ 100 ∧ 2 * (100:ℝ) ≤ 20000 ∧ (2:ℤ) ≤ round (modeN 100) ∧
      round (modeN 100) ≤ 7 ∧ targetModeN (2 * 100) - targetModeN 100 = 1 :=
  ⟨by norm_num, by norm_num, by rw [round_modeN_100], by rw [round_modeN_100]; norm_num,
    octave_pairs_modeN_diff_one 100 (by norm_num) (by norm_num)
      (by rw [round_modeN_100]) (by rw [round_modeN_100]; norm_num)⟩

/-- Counterexample to C1 as stated: `f1 = 50` and `f2 = 100` are a valid
octave pair inside the supported span, yet both map to target mode `n = 2`
(the low clamp), so the difference is 0, not approximately 1. -/
theorem octave_pairs_modeN_counterexample :
    (20:ℝ) ≤ 50 ∧ 2 * (50:ℝ) ≤ 20000 ∧
      targetModeN (2 * 50) - targetModeN 50 = 0 := by
  refine ⟨by norm_num, by norm_num, ?_⟩
  rw [show (2:ℝ) * 50 = 100 by norm_num, targetModeN_100, targetModeN_50]
  norm_num

/-! ### C8: antisymmetry of the field equation -/

/-- Claim C8 (confirmed): the Chladni field value is antisymmetric under
swapping the two mode numbers: `value(x,y,n,m) = -value(x,y,m,n)`. -/
theorem calculateChladni_antisymm (x y n m : ℝ) :
    calculateChladni x y n m = -calculateChladni x y m n := by
  unfold calculateChladni
  ring

/-! ### C9: the retargeting sampler never assigns a poor match -/

theorem bestSample_aux (width height n m : ℝ) (l : List (ℝ × ℝ))
    (acc : Option ((ℝ × ℝ) × ℝ)) (q : ℝ × ℝ) (dq : ℝ)
    (h : l.foldl (sampleStep width height n m) acc = some (q, dq)) :
    acc = some (q, dq) ∨ (q ∈ l ∧ dq = chladniAbsAt width height n m q) := by
  induction l generalizing acc with
  | nil => exact Or.inl h
  | cons p rest ih =>
    rcases ih (sampleStep width height n m acc p) h with hstep | ⟨hmem, hval⟩
    · cases acc with
      | none =>
        simp only [sampleStep, Option.some.injEq, Prod.mk.injEq] at hstep
        obtain ⟨rfl, rfl⟩ := hstep
        exact Or.inr ⟨List.mem_cons_self _ _, rfl⟩
      | some qd =>
        simp only [sampleStep] at hstep
        by_cases hlt : chladniAbsAt width height n m p < qd.2
        · rw [if_pos hlt] at hstep
          simp only [Option.some.injEq, Prod.mk.injEq] at hstep
          obtain ⟨rfl, rfl⟩ := hstep
          exact Or.inr ⟨List.mem_cons_self _ _, rfl⟩
        · rw [if_neg hlt] at hstep
          left
          rw [← hstep]
    · exact Or.inr ⟨List.mem_cons_of_mem _ hmem, hval⟩

/-- Claim C9 (confirmed): after `updateTargets`, each particle's target is
either unchanged, or equal to one of the sampled points whose field magnitude
is strictly below the tolerance `0.2`; a best sample at or above the
tolerance is never assigned. -/
theorem updateTarget_tolerance (width height n m : ℝ) (prev : ℝ × ℝ)
    (samples : List (ℝ × ℝ)) :
    updateTarget width height n m prev samples = prev ∨
      ∃ p ∈ samples, updateTarget width height n m prev samples = p ∧
        chladniAbsAt width height n m p < 0.2 := by
  cases hbs : bestSample width height n m samples with
  | none =>
    left
    simp only [updateTarget, hbs]
  | some qd =>
    by_cases hlt : qd.2 < 0.2
    · simp only [updateTarget, hbs, if_pos hlt]
      rcases bestSample_aux width height n m samples none qd.1 qd.2
        (by unfold bestSample at hbs; rw [hbs]) with hcontra | ⟨hmem, hval⟩
      · exact absurd hcontra (by simp)
      · exact Or.inr ⟨qd.1, hmem, rfl, hval ▸ hlt⟩
    · simp only [updateTarget, hbs, if_neg hlt]
      exact Or.inl trivial

/-! ### C5/C6 machinery: clamp bounds and damped steps -/

theorem clampMode_mem (x : ℝ) : 2 ≤ clampMode x ∧ clampMode x ≤ 8 := by
  unfold clampMode
  constructor
  · exact le_max_left _ _
  · exact max_le (by norm_num) (min_le_left _ _)

theorem octaveNudge_mem (f : ℝ) : 0 ≤ octaveNudge f ∧ octaveNudge f ≤ 0.3 := by
  unfold octaveNudge
  by_cases h : 0.7 < fractionalOctave f
  · rw [if_pos h]; norm_num
  · rw [if_neg h]; norm_num

theorem targetModeN_mem (f : ℝ) : 2 ≤ targetModeN f ∧ targetModeN f ≤ 8.3 := by
  unfold targetModeN
  have h1 := clampMode_mem (modeN f)
  have h2 := octaveNudge_mem f
  constructor <;> linarith [h1.1, h1.2, h2.1, h2.2]

theorem targetModeM_mem (f : ℝ) : 2 ≤ targetModeM f ∧ targetModeM f ≤ 8.3 := by
  unfold targetModeM
  have h1 := clampMode_mem (modeM f)
  have h2 := octaveNudge_mem f
  constructor <;> linarith [h1.1, h1.2, h2.1, h2.2]

theorem damp_between {cur tar s : ℝ} (h0 : 0 ≤ s) (h1 : s ≤ 1) :
    min cur tar ≤ cur + (tar - cur) * s ∧ cur + (tar - cur) * s ≤ max cur tar := by
  rcases le_total cur tar with h | h
  · rw [min_eq_left h, max_eq_right h]
    constructor <;> nlinarith
  · rw [min_eq_right h, max_eq_left h]
    constructor <;> nlinarith

theorem damp_mem {lo hi cur tar s : ℝ} (hc1 : lo ≤ cur) (hc2 : cur ≤ hi)
    (ht1 : lo ≤ tar) (ht2 : tar ≤ hi) (h0 : 0 ≤ s) (h1 : s ≤ 1) :
    lo ≤ cur + (tar - cur) * s ∧ cur + (tar - cur) * s ≤ hi := by
  constructor <;> nlinarith

theorem stepMode_inv {s : ModeState} {e : ModeEvent} (hs : modeInv s) (he : eventOK e) :
    modeInv (stepMode s e) := by
  obtain ⟨hcn, hcm, htn, htm⟩ := hs
  cases e with
  | updFreq f =>
    exact ⟨hcn, hcm, targetModeN_mem f, targetModeM_mem f⟩
  | render dt =>
    obtain ⟨hd0, hd1⟩ := he
    have hspeed0 : (0:ℝ) ≤ dt * 2 := by linarith
    have hspeed1 : dt * 2 ≤ 1 := by linarith
    exact ⟨damp_mem hcn.1 hcn.2 htn.1 htn.2 hspeed0 hspeed1,
      damp_mem hcm.1 hcm.2 htm.1 htm.2 hspeed0 hspeed1, htn, htm⟩

theorem foldl_stepMode_inv (events : List ModeEvent) :
    ∀ s : ModeState, modeInv s → (∀ e ∈ events, eventOK e) →
      modeInv (events.foldl stepMode s) := by
  induction events with
  | nil => intro s hs _; exact hs
  | cons e rest ih =>
    intro s hs hok
    exact ih (stepMode s e) (stepMode_inv hs (hok e (List.mem_cons_self _ _)))
      (fun x hx => hok x (List.mem_cons_of_mem _ hx))

/-- Claim C5 (corrected): starting from construction, after any sequence of
`updateFrequency` and `render` calls in which every render step's elapsed
time lies in `[0, 0.5]` s, all four mode fields lie in `[2, 8.3]` — the
clamp range `[2, 8]` widened by the `0.3` fractional-octave nudge, which the
code adds after clamping. -/
theorem mode_fields_bounded (events : List ModeEvent)
    (hok : ∀ e ∈ events, eventOK e) : modeInv (runMode events) := by
  unfold runMode
  refine foldl_stepMode_inv events initModeState ?_ hok
  unfold modeInv initModeState
  norm_num

/-- Witness for C5 at a concrete call sequence. -/
theorem mode_fields_bounded_witness :
    (∀ e ∈ [ModeEvent.updFreq 800, ModeEvent.render 0.016], eventOK e) ∧
      modeInv (runMode [ModeEvent.updFreq 800, ModeEvent.render 0.016]) := by
  have hok : ∀ e ∈ [ModeEvent.updFreq 800, ModeEvent.render 0.016], eventOK e := by
    intro e he
    rcases List.mem_cons.mp he with rfl | he2
    · exact trivial
    · rcases List.mem_cons.mp he2 with rfl | he3
      · exact ⟨by norm_num, by norm_num⟩
      · exact absurd he3 (List.not_mem_nil e)
  exact ⟨hok, mode_fields_bounded _ hok⟩

/-! ### C5 counterexample: the nudge is applied after the clamp -/

theorem rpow_29_5_ge_one : (1:ℝ) ≤ (2:ℝ) ^ ((29:ℝ)/5) := by
  rw [show (1:ℝ) = (2:ℝ) ^ ((0:ℝ)) by rw [Real.rpow_zero]]
  rw [Real.rpow_le_rpow_left_iff (by norm_num)]
  norm_num

theorem rpow_29_5_le_64 : (2:ℝ) ^ ((29:ℝ)/5) ≤ 64 := by
  rw [show (64:ℝ) = (2:ℝ) ^ ((6:ℝ)) by
    rw [show ((6:ℝ)) = ((6 : ℕ) : ℝ) by norm_num, Real.rpow_natCast]; norm_num]
  rw [Real.rpow_le_rpow_left_iff (by norm_num)]
  norm_num

theorem oct_nudge_freq : octavesFrom200Hz (200 * (2:ℝ) ^ ((29:ℝ)/5)) = 29/5 := by
  exact oct_eval _ (by nlinarith [rpow_29_5_ge_one]) (by nlinarith [rpow_29_5_le_64])

theorem targetModeN_nudge_freq : targetModeN (200 * (2:ℝ) ^ ((29:ℝ)/5)) = 8.3 := by
  unfold targetModeN clampMode octaveNudge fractionalOctave modeN
  rw [oct_nudge_freq]
  rw [round_eval (q := 3 + 29/5) (z := 9) (by norm_num) (by norm_num)]
  rw [floor_eval (q := (29:ℝ)/5) (z := 5) (by norm_num) (by norm_num)]
  norm_num

/-- Counterexample to C5 as stated: a single `updateFrequency` call with the
in-span frequency `200·2^(29/5) ≈ 11143 Hz` leaves `targetModeN = 8.3`,
outside the claimed range `[2, 8]`, because the `+0.3` fractional-octave
nudge is applied after the clamp. -/
theorem mode_fields_bounded_counterexample :
    (runMode [ModeEvent.updFreq (200 * (2:ℝ) ^ ((29:ℝ)/5))]).targetModeN = 8.3 ∧
      ¬ (runMode [ModeEvent.updFreq (200 * (2:ℝ) ^ ((29:ℝ)/5))]).targetModeN ≤ 8 := by
  have h : (runMode [ModeEvent.updFreq (200 * (2:ℝ) ^ ((29:ℝ)/5))]).targetModeN =
      targetModeN (200 * (2:ℝ) ^ ((29:ℝ)/5)) := rfl
  rw [h, targetModeN_nudge_freq]
  norm_num

/-! ### C6: damped approach and overshoot -/

theorem targetModeN_800 : targetModeN 800 = 5 := by
  unfold targetModeN clampMode octaveNudge fractionalOctave modeN
  rw [oct_800]
  rw [round_eval (q := (3:ℝ) + 2) (z := 5) (by norm_num) (by norm_num)]
  rw [floor_eval (q := (2:ℝ)) (z := 2) (by norm_num) (by norm_num)]
  norm_num

theorem targetModeM_800 : targetModeM 800 = 5 := by
  unfold targetModeM clampMode octaveNudge fractionalOctave modeM
  rw [oct_800]
  rw [round_eval (q := (3:ℝ) + 2 * 0.8) (z := 5) (by norm_num) (by norm_num)]
  rw [floor_eval (q := (2:ℝ)) (z := 2) (by norm_num) (by norm_num)]
  norm_num

/-- Claim C6 (corrected): `GeometryRenderer.updateState` never overshoots for
any non-negative elapsed time, because its per-frame factor is capped at 0.3;
the Chladni render step does not cap its elapsed time, and is overshoot-free
only when the measured `dt` is at most 0.5 s (per-frame factor `dt·2 ≤ 1`). -/
theorem damped_steps_no_overshoot :
    (∀ (current target : ChakraState) (dt : ℝ), 0 ≤ dt →
      between current.petals target.petals (geomUpdateState current target dt).petals ∧
      between current.centralVertices target.centralVertices
        (geomUpdateState current target dt).centralVertices ∧
      between current.rings target.rings (geomUpdateState current target dt).rings ∧
      between current.gateStyle target.gateStyle (geomUpdateState current target dt).gateStyle ∧
      between current.color.r target.color.r (geomUpdateState current target dt).color.r ∧
      between current.color.g target.color.g (geomUpdateState current target dt).color.g ∧
      between current.color.b target.color.b (geomUpdateState current target dt).color.b ∧
      between current.innerColor.r target.innerColor.r
        (geomUpdateState current target dt).innerColor.r ∧
      between current.innerColor.g target.innerColor.g
        (geomUpdateState current target dt).innerColor.g ∧
      between current.innerColor.b target.innerColor.b
        (geomUpdateState current target dt).innerColor.b ∧
      between current.rotSpeed target.rotSpeed (geomUpdateState current target dt).rotSpeed ∧
      between current.complexity target.complexity
        (geomUpdateState current target dt).complexity ∧
      between current.sacredForm target.sacredForm
        (geomUpdateState current target dt).sacredForm) ∧
    (∀ (s : ModeState) (dt : ℝ), 0 ≤ dt → dt ≤ 1/2 →
      between s.currentModeN s.targetModeN (applyRender s dt).currentModeN ∧
      between s.currentModeM s.targetModeM (applyRender s dt).currentModeM) := by
  constructor
  · intro current target dt hdt
    have hs0 : 0 ≤ geomSpeed dt := le_min (by nlinarith) (by norm_num)
    have hs1 : geomSpeed dt ≤ 1 := le_trans (min_le_right _ _) (by norm_num)
    exact ⟨damp_between hs0 hs1, damp_between hs0 hs1, damp_between hs0 hs1,
      damp_between hs0 hs1, damp_between hs0 hs1, damp_between hs0 hs1,
      damp_between hs0 hs1, damp_between hs0 hs1, damp_between hs0 hs1,
      damp_between hs0 hs1, damp_between hs0 hs1, damp_between hs0 hs1,
      damp_between hs0 hs1⟩
  · intro s dt h0 h1
    have hs0 : (0:ℝ) ≤ dt * 2 := by linarith
    have hs1 : dt * 2 ≤ 1 := by linarith
    exact ⟨damp_between hs0 hs1, damp_between hs0 hs1⟩

/-- Witness for C6 at concrete states and `dt = 0.016`. -/
theorem damped_steps_no_overshoot_witness :
    (0:ℝ) ≤ 0.016 ∧ (0.016:ℝ) ≤ 1/2 ∧
      between chakraRoot.state.petals chakraCrown.state.petals
        (geomUpdateState chakraRoot.state chakraCrown.state 0.016).petals ∧
      between initModeState.currentModeN initModeState.targetModeN
        (applyRender initModeState 0.016).currentModeN :=
  ⟨by norm_num, by norm_num,
    (damped_steps_no_overshoot.1 chakraRoot.state chakraCrown.state 0.016 (by norm_num)).1,
    (damped_steps_no_overshoot.2 initModeState 0.016 (by norm_num) (by norm_num)).1⟩

/-- Counterexample to C6 as stated: the Chladni render step does not clamp
the measured elapsed time.  After `updateFrequency(800)` (current n = 3,
target n = 5), a render with `dt = 1` s produces `currentModeN = 7`, beyond
the target — an overshoot. -/
theorem damped_steps_no_overshoot_counterexample :
    (runMode [ModeEvent.updFreq 800]).currentModeN = 3 ∧
      (runMode [ModeEvent.updFreq 800]).targetModeN = 5 ∧
      (runMode [ModeEvent.updFreq 800, ModeEvent.render 1]).currentModeN = 7 ∧
      ¬ between (3:ℝ) 5 7 := by
  refine ⟨rfl, ?_, ?_, ?_⟩
  · show targetModeN 800 = 5
    exact targetModeN_800
  · show (3:ℝ) + (targetModeN 800 - 3) * (1 * 2) = 7
    rw [targetModeN_800]
    norm_num
  · unfold between
    rw [max_eq_right (by norm_num : (3:ℝ) ≤ 5)]
    intro h
    linarith [h.2]

/-! ### C2: effective intensity bounds (shader path and software fallback) -/

theorem cubic_mem {t : ℝ} (h0 : 0 ≤ t) (h1 : t ≤ 1) :
    0 ≤ t * t * (3 - 2 * t) ∧ t * t * (3 - 2 * t) ≤ 1 := by
  constructor
  · nlinarith
  · nlinarith [sq_nonneg (1 - t), mul_nonneg (sq_nonneg (1 - t)) h0]

theorem glslSmoothstep_mem (edge0 edge1 x : ℝ) :
    0 ≤ glslSmoothstep edge0 edge1 x ∧ glslSmoothstep edge0 edge1 x ≤ 1 := by
  have h0 : 0 ≤ max 0 (min 1 ((x - edge0) / (edge1 - edge0))) := le_max_left _ _
  have h1 : max 0 (min 1 ((x - edge0) / (edge1 - edge0))) ≤ 1 :=
    max_le zero_le_one (min_le_left _ _)
  simp only [glslSmoothstep]
  exact cubic_mem h0 h1

theorem exp_neg_abs_mem (z : ℝ) :
    0 ≤ Real.exp (-|z| * 6) ∧ Real.exp (-|z| * 6) ≤ 1 :=
  ⟨(Real.exp_pos _).le, Real.exp_le_one_iff.mpr (by nlinarith [abs_nonneg z])⟩

theorem intensity_combine_mem {ss1 e g ss2 : ℝ} (hss1 : 0 ≤ ss1 ∧ ss1 ≤ 1)
    (he : 0 ≤ e ∧ e ≤ 1) (hg : 0 ≤ g ∧ g ≤ 1) (hss2 : 0 ≤ ss2 ∧ ss2 ≤ 1) :
    0 ≤ ((1 - ss1) * 1.0 + e * g * 0.6) * ss2 ∧
      ((1 - ss1) * 1.0 + e * g * 0.6) * ss2 ≤ 1.6 := by
  have hnn : 0 ≤ e * g := mul_nonneg he.1 hg.1
  have hle : e * g ≤ 1 := by nlinarith [he.1, he.2, hg.1, hg.2]
  constructor
  · have hinner : 0 ≤ (1 - ss1) * 1.0 + e * g * 0.6 := by nlinarith [hss1.2]
    exact mul_nonneg hinner hss2.1
  · nlinarith [hss1.1, hss1.2, hss2.1, hss2.2]

/-- Claim C2 (corrected): the shader's effective intensity is bounded in
`[0, 1.6]` (not `[0, 1]`) for every amplitude in `[0, 1]`; at amplitude 0 the
shader still shows the nodal pattern (intensity `1.3` at a central nodal
point); the software 2D fallback multiplies its alpha by the amplitude and is
therefore fully transparent at amplitude exactly 0, for every pixel. -/
theorem effective_intensity_bounds :
    (∀ n m time amplitude x y : ℝ, 0 ≤ amplitude → amplitude ≤ 1 →
      0 ≤ shaderIntensity n m time amplitude x y ∧
        shaderIntensity n m time amplitude x y ≤ 1.6) ∧
      shaderIntensity 3 3 0 0 0 0 = 1.3 ∧
      (∀ n m x y : ℝ, render2DAlpha n m 0 x y = 0) := by
  refine ⟨?_, ?_, ?_⟩
  · intro n m time amplitude x y ha0 ha1
    have hg : 0 ≤ 0.5 * (1 + amplitude) ∧ 0.5 * (1 + amplitude) ≤ 1 := by
      constructor <;> linarith
    simp only [shaderIntensity]
    exact intensity_combine_mem (glslSmoothstep_mem _ _ _) (exp_neg_abs_mem _) hg
      (glslSmoothstep_mem _ _ _)
  · simp only [shaderIntensity, glslSmoothstep, shaderPI]
    norm_num [Real.cos_zero, Real.sin_zero, Real.sqrt_zero, Real.exp_zero,
      min_def, max_def]
  · intro n m x y
    simp [render2DAlpha]

/-- Witness for C2's bounded-intensity part at a concrete shader input. -/
theorem effective_intensity_bounds_witness :
    (0:ℝ) ≤ 1/2 ∧ (1/2:ℝ) ≤ 1 ∧
      (0 ≤ shaderIntensity 3 2 1 (1/2) (1/3) (1/5) ∧
        shaderIntensity 3 2 1 (1/2) (1/3) (1/5) ≤ 1.6) :=
  ⟨by norm_num, by norm_num,
    effective_intensity_bounds.1 3 2 1 (1/2) (1/3) (1/5) (by norm_num) (by norm_num)⟩

/-- Counterexample to C2 as stated: at a central nodal point the shader
intensity reaches 1.6 > 1 at amplitude 1 (the bound `[0,1]` fails), and the
software fallback writes alpha 0 at a pixel on a nodal line at amplitude 0
(the pattern fully disappears). -/
theorem effective_intensity_counterexample :
    1 < shaderIntensity 3 3 0 1 0 0 ∧ render2DIntensity 3 2 0 0 = 255 ∧
      render2DAlpha 3 2 0 0 0 = 0 := by
  refine ⟨?_, ?_, ?_⟩
  · have h : shaderIntensity 3 3 0 1 0 0 = 1.6 := by
      simp only [shaderIntensity, glslSmoothstep, shaderPI]
      norm_num [Real.cos_zero, Real.sin_zero, Real.sqrt_zero, Real.exp_zero,
        min_def, max_def]
    rw [h]
    norm_num
  · simp only [render2DIntensity, calculateChladni]
    norm_num [Real.cos_zero]
  · simp [render2DAlpha]

/-! ### C3: the wave wavelength denominator -/

/-- Claim C3 (code bug): `WaveRenderer.updateFrequency` stores the frequency
unclamped, and at the in-span frequency 2000 Hz the wavelength
`50 + (1000 − f)·0.05` — the denominator of `distance / wavelength` in
`calculateInterference` — is exactly 0. -/
theorem wave_wavelength_zero_in_span :
    waveUpdateFrequency 2000 = 2000 ∧ waveWavelength 2000 = 0 ∧
      (20:ℝ) ≤ 2000 ∧ (2000:ℝ) ≤ 20000 := by
  refine ⟨rfl, ?_, by norm_num, by norm_num⟩
  unfold waveWavelength
  norm_num

/-! ### C4: construction failure behaviour -/

/-- Claim C4 (corrected, amended form): `GeometryRenderer` fails fast with an
exception exactly when no 2D context is obtainable; `ChladniRenderer` does
not throw when the target canvas yields neither a WebGL nor a 2D context
(only a missing 2D context on the particle canvas throws, inside
`ParticleSystem`), and its render dispatch selects a drawing path only when
the corresponding context exists — with no context it draws nothing. -/
theorem construction_failfast :
    geometryConstruct false = Except.error "Failed to get 2D context" ∧
      geometryConstruct true = Except.ok () ∧
      chladniConstruct true false false true = Except.ok ⟨false, false⟩ ∧
      chladniConstruct true false false false = Except.error "Could not get 2D context" ∧
      renderDispatch ⟨false, false⟩ = none ∧
      renderDispatch ⟨true, false⟩ = some RenderPath.webgl ∧
      renderDispatch ⟨false, true⟩ = some RenderPath.canvas2d :=
  ⟨rfl, rfl, rfl, rfl, rfl, rfl, rfl⟩

/-- Counterexample to C4 as stated: with neither a WebGL nor a 2D context
obtainable from the target canvas, `ChladniRenderer` construction still
succeeds (no exception is thrown), and its render dispatch then draws no
field layer. -/
theorem construction_failfast_counterexample :
    chladniConstruct true false false true = Except.ok ⟨false, false⟩ ∧
      renderDispatch ⟨false, false⟩ = none :=
  ⟨rfl, rfl⟩

/-! ### C7: chakra interpolation endpoints -/

theorem smoothT_zero : smoothT 0 = 0 := by
  unfold smoothT
  ring

theorem smoothT_one : smoothT 1 = 1 := by
  unfold smoothT
  norm_num

theorem interpolateChakra_zero (lower upper : ChakraState) :
    interpolateChakra lower upper (smoothT 0) = lower := by
  have h : ∀ a b : ℝ, a + (b - a) * smoothT 0 = a := fun a b => by
    rw [smoothT_zero]; ring
  simp only [interpolateChakra, lerp, lerpColor, h]

theorem interpolateChakra_one (lower upper : ChakraState) :
    interpolateChakra lower upper (smoothT 1) = upper := by
  have h : ∀ a b : ℝ, a + (b - a) * smoothT 1 = b := fun a b => by
    rw [smoothT_one]; ring
  simp only [interpolateChakra, lerp, lerpColor, h]

/-- Claim C7 (confirmed): for every adjacent pair of anchors in the `CHAKRAS`
table, interpolation at weight parameter `t = 0` returns exactly the lower
anchor state and at `t = 1` exactly the upper anchor state (all fields,
colours componentwise), and the weight applied to every field is the
smoothstep `t·t·(3−2t)`, exemplified on the `petals` field. -/
theorem chakra_interpolation_endpoints :
    ∀ i : ℕ, ∀ h : i + 1 < CHAKRAS.length,
      interpolateChakra (CHAKRAS.get ⟨i, Nat.lt_of_succ_lt h⟩).state
          (CHAKRAS.get ⟨i + 1, h⟩).state (smoothT 0) =
        (CHAKRAS.get ⟨i, Nat.lt_of_succ_lt h⟩).state ∧
      interpolateChakra (CHAKRAS.get ⟨i, Nat.lt_of_succ_lt h⟩).state
          (CHAKRAS.get ⟨i + 1, h⟩).state (smoothT 1) =
        (CHAKRAS.get ⟨i + 1, h⟩).state ∧
      ∀ t : ℝ,
        (interpolateChakra (CHAKRAS.get ⟨i, Nat.lt_of_succ_lt h⟩).state
            (CHAKRAS.get ⟨i + 1, h⟩).state (smoothT t)).petals =
          (CHAKRAS.get ⟨i, Nat.lt_of_succ_lt h⟩).state.petals +
            ((CHAKRAS.get ⟨i + 1, h⟩).state.petals -
              (CHAKRAS.get ⟨i, Nat.lt_of_succ_lt h⟩).state.petals) *
              (t * t * (3 - 2 * t)) :=
  fun i h =>
    ⟨interpolateChakra_zero _ _, interpolateChakra_one _ _, fun t => rfl⟩

/-- Witness for C7 at the first adjacent anchor pair. -/
theorem chakra_interpolation_endpoints_witness :
    0 + 1 < CHAKRAS.length ∧
      interpolateChakra (CHAKRAS.get ⟨0, by norm_num [CHAKRAS]⟩).state
          (CHAKRAS.get ⟨0 + 1, by norm_num [CHAKRAS]⟩).state (smoothT 0) =
        (CHAKRAS.get ⟨0, by norm_num [CHAKRAS]⟩).state :=
  ⟨by norm_num [CHAKRAS], (chakra_interpolation_endpoints 0 (by norm_num [CHAKRAS])).1⟩

/-! ### C10: getChakraState clamping and boundary anchors -/

theorem chakraBody_low {c : ℝ} (hc : c ≤ 120) : chakraBody c = chakraRoot.state := by
  simp only [chakraBody]
  rw [if_pos (show c ≤ chakraRoot.freq from hc)]

theorem chakraBody_high {c : ℝ} (hc : 1000 ≤ c) : chakraBody c = chakraCrown.state := by
  simp only [chakraBody]
  rw [if_neg (show ¬ c ≤ chakraRoot.freq from
    not_le.mpr (show chakraRoot.freq < c from by show (120:ℝ) < c; linarith))]
  rw [if_pos (show chakraCrown.freq ≤ c from hc)]

/-- Claim C10 (confirmed): `getChakraState` depends on its input only through
the clamp into `[20, 2000]`; every frequency at or below the first anchor
frequency 120 Hz yields the first anchor state, and every frequency at or
above the last anchor frequency 1000 Hz yields the last anchor state — no
extrapolation beyond the table. -/
theorem getChakraState_clamps :
    ∀ freq : ℝ,
      (freq ≤ 120 → getChakraState freq = chakraRoot.state) ∧
      (1000 ≤ freq → getChakraState freq = chakraCrown.state) ∧
      getChakraState freq = getChakraState (max 20 (min freq 2000)) := by
  intro freq
  refine ⟨?_, ?_, ?_⟩
  · intro h
    apply chakraBody_low
    exact max_le (by norm_num) (le_trans (min_le_left _ _) h)
  · intro h
    apply chakraBody_high
    exact le_trans (le_min h (by norm_num)) (le_max_right _ _)
  · have h1 : max 20 (min freq 2000) ≤ 2000 := max_le (by norm_num) (min_le_right _ _)
    have hclamp : max 20 (min (max 20 (min freq 2000)) 2000) = max 20 (min freq 2000) := by
      rw [min_eq_left h1, ← max_assoc, max_self]
    show chakraBody _ = chakraBody _
    rw [hclamp]

/-- Witness for C10 at frequencies 60 Hz and 1500 Hz. -/
theorem getChakraState_clamps_witness :
    (60:ℝ) ≤ 120 ∧ (1000:ℝ) ≤ 1500 ∧ getChakraState 60 = chakraRoot.state ∧
      getChakraState 1500 = chakraCrown.state :=
  ⟨by norm_num, by norm_num, (getChakraState_clamps 60).1 (by norm_num),
    (getChakraState_clamps 1500).2.1 (by norm_num)⟩
